import Mathlib

/-!
Shallow embedding of `src/dashboard_iot.py`, the telemetry ingest-and-command
bridge of the esp32-smart-monitoring dashboard.

The embedding covers:
* the Python value domain reached by `json.loads` (`Json`), with `dict.get`,
  truthiness, and the `_to_float` / `_to_int` best-effort coercions;
* the module-level mutable state (`last_data` dict and `data_history` list)
  and the `on_message` MQTT callback (lines 111-183 of the source);
* the history bound (append then keep the last 300 entries);
* the `start_mqtt_once` bridge start and its background reconnect worker
  (lines 188-219);
* a micro-step semantics of the LOCK-guarded critical sections, used to
  reason about interleavings of the writer (`on_message`) with the reader
  (`build_dashboard`'s locked copy, lines 277-280).

Timestamps (`datetime.now()`) are modelled as abstract `Nat` instants passed
as explicit inputs; JSON numbers are modelled as rationals.
-/

/-- A Python value produced by `json.loads`: JSON null, booleans, numbers
(modelled as rationals), strings, arrays and objects. Objects are association
lists; `json.loads` yields unique keys so lookup order is immaterial. -/
inductive Json where
  | null
  | bool (b : Bool)
  | num (q : Rat)
  | str (s : String)
  | arr (elems : List Json)
  | obj (fields : List (String × Json))

/-- `true` exactly for JSON objects (Python `dict`s). -/
def Json.isObj : Json → Bool
  | .obj _ => true
  | _ => false

/-- The fields of a JSON object (`[]` for non-objects). -/
def Json.objFields : Json → List (String × Json)
  | .obj kvs => kvs
  | _ => []

/-- Python `payload.get(k, d)` on a decoded JSON object: if the key is present
its value is returned (JSON `null` decodes to Python `None`, modelled as
`none`); the default `d` is used only when the key is absent. In particular a
present-but-null key does NOT fall through to the default. -/
def pyGet (kvs : List (String × Json)) (k : String) (d : Option Json) : Option Json :=
  match kvs.lookup k with
  | some Json.null => none
  | some v => some v
  | none => d

/-- Python truthiness `bool(x)` of a decoded JSON value. -/
def pyTruthy : Json → Bool
  | .null => false
  | .bool b => b
  | .num q => !(q == 0)
  | .str s => !s.isEmpty
  | .arr xs => !xs.isEmpty
  | .obj kvs => !kvs.isEmpty

/-- Digits of a numeral, most significant first, as a natural number. -/
def digitsVal (ds : List Char) : Nat :=
  ds.foldl (fun n c => n * 10 + (c.toNat - 48)) 0

/-- Body of Python `float(s)` after sign stripping: `digits`, `digits.`,
`digits.digits` or `.digits` (the decimal forms occurring in this program;
exponent/inf/nan forms are not exercised by any payload field). -/
def parsePyFloatCore (cs : List Char) : Option Rat :=
  let ip := cs.takeWhile Char.isDigit
  let rest := cs.dropWhile Char.isDigit
  match rest with
  | [] => if ip.isEmpty then none else some (digitsVal ip : Rat)
  | '.' :: frac =>
    if frac.all Char.isDigit && !(ip.isEmpty && frac.isEmpty) then
      some ((digitsVal ip : Rat) + (digitsVal frac : Rat) / ((10 : Rat) ^ frac.length))
    else none
  | _ => none

/-- Python `float(s)` on a string: optional sign around the decimal core,
surrounding whitespace ignored; unparseable strings raise (yielding `none`
through the caller's `except`). -/
def parsePyFloat (s : String) : Option Rat :=
  match s.trim.toList with
  | '-' :: rest => (parsePyFloatCore rest).map (fun q => -q)
  | '+' :: rest => parsePyFloatCore rest
  | cs => parsePyFloatCore cs

/-- Python `int(s)` on a string: optional sign followed by digits only
(`int("1.5")` raises, yielding `none` through the caller's `except`). -/
def parsePyInt (s : String) : Option Int :=
  match s.trim.toList with
  | '-' :: rest =>
    if !rest.isEmpty && rest.all Char.isDigit then some (-(digitsVal rest : Int)) else none
  | '+' :: rest =>
    if !rest.isEmpty && rest.all Char.isDigit then some (digitsVal rest : Int) else none
  | cs =>
    if !cs.isEmpty && cs.all Char.isDigit then some (digitsVal cs : Int) else none

/-- Python `int(q)` on a number: truncation toward zero. -/
def pyIntOfRat (q : Rat) : Int :=
  Int.tdiv q.num (q.den : Int)

/-- `_to_float` (source lines 71-77): `None` stays `None`, otherwise `float(x)`
with every exception mapped to `None`. `float` accepts numbers, booleans
(`float(True) = 1.0`) and numeric strings; anything else raises. -/
def _to_float : Option Json → Option Rat
  | none => none
  | some (.num q) => some q
  | some (.bool b) => some (if b then 1 else 0)
  | some (.str s) => parsePyFloat s
  | some _ => none

/-- `_to_int` (source lines 79-85): `None` stays `None`, otherwise `int(x)`
with every exception mapped to `None`; `int` truncates numbers toward zero. -/
def _to_int : Option Json → Option Int
  | none => none
  | some (.num q) => some (pyIntOfRat q)
  | some (.bool b) => some (if b then 1 else 0)
  | some (.str s) => parsePyInt s
  | some _ => none

/-- The module-level `last_data` dict (source lines 47-64): one slot per key,
every slot initially `None`. Float-valued slots hold `Option Rat`, int-valued
slots `Option Int`, the three coerced alarm slots `Option Bool`, and the four
pass-through slots the raw JSON value (`Option Json`, `none` for absent). -/
structure LastData where
  temperature : Option Rat
  humidity : Option Rat
  tempSeuil : Option Rat
  humSeuil : Option Rat
  flame : Option Int
  flameRaw : Option Int
  pot : Option Int
  seuilPot : Option Rat
  alarm : Option Bool
  alarmTemp : Option Bool
  alarmFlame : Option Bool
  alarmLocal : Option Json
  muted : Option Json
  motorForced : Option Json
  motorSpeed : Option Json
  last_update : Option Nat

/-- A value stored in a history-entry dict: the timestamp, a float slot or an
int slot. -/
inductive HVal where
  | vtime (t : Nat)
  | vfloat (q : Option Rat)
  | vint (n : Option Int)
deriving DecidableEq

/-- One `data_history` entry: the dict literal of source lines 159-165,
modelled as an association list so that its exact key set is part of the
model. -/
def Entry : Type := List (String × HVal)

instance : DecidableEq Entry := inferInstanceAs (DecidableEq (List (String × HVal)))

/-- The history-entry dict appended by `on_message` (source lines 159-165):
exactly the keys `time`, `temperature`, `humidity`, `flame`, `pot`, read from
the just-updated `last_data`. -/
def mkEntry (now : Nat) (ld : LastData) : Entry :=
  [("time", HVal.vtime now),
   ("temperature", HVal.vfloat ld.temperature),
   ("humidity", HVal.vfloat ld.humidity),
   ("flame", HVal.vint ld.flame),
   ("pot", HVal.vint ld.pot)]

/-- The module-level mutable state guarded by `LOCK`: the `last_data` dict and
the `data_history` list. -/
structure State where
  last_data : LastData
  data_history : List Entry

/-- `last_data` as initialised at import time: every slot `None`. -/
def initLastData : LastData :=
  { temperature := none, humidity := none, tempSeuil := none, humSeuil := none
    flame := none, flameRaw := none, pot := none, seuilPot := none
    alarm := none, alarmTemp := none, alarmFlame := none
    alarmLocal := none, muted := none, motorForced := none, motorSpeed := none
    last_update := none }

/-- The module state at import time: empty history, all-`None` `last_data`. -/
def initState : State :=
  { last_data := initLastData, data_history := [] }

/-- History insertion (source lines 159-169): append the entry, then if the
length exceeds 300 keep only the last 300 (`data_history[-300:]`). -/
def insertHist (h : List Entry) (e : Entry) : List Entry :=
  let l := h ++ [e]
  if l.length > 300 then l.drop (l.length - 300) else l

/-- The LOCK-guarded update of `on_message` for an object payload (source
lines 122-169): alias resolution for humidity/seuil/alarm, coercion of each
slot, timestamp update, then history append and truncation. -/
def applyObj (st : State) (kvs : List (String × Json)) (now : Nat) : State :=
  let humidity := pyGet kvs "humidity" (pyGet kvs "humidite" none)
  let seuil := pyGet kvs "seuilPot" (pyGet kvs "seuil" (pyGet kvs "tempSeuil" none))
  let alarm := pyGet kvs "alarm" none
  let alarmTemp := pyGet kvs "alarmTemp" none
  let alarmFlame := pyGet kvs "alarmFlame" none
  let ld : LastData :=
    { temperature := _to_float (pyGet kvs "temperature" none)
      humidity := _to_float humidity
      tempSeuil := _to_float (pyGet kvs "tempSeuil" none)
      humSeuil := _to_float (pyGet kvs "humSeuil" none)
      flame := _to_int (pyGet kvs "flame" none)
      flameRaw := _to_int (pyGet kvs "flameRaw" none)
      pot := _to_int (pyGet kvs "pot" none)
      seuilPot := _to_float seuil
      alarm := alarm.map pyTruthy
      alarmTemp := alarmTemp.map pyTruthy
      alarmFlame := alarmFlame.map pyTruthy
      alarmLocal := pyGet kvs "alarmLocal" none
      muted := pyGet kvs "muted" none
      motorForced := pyGet kvs "motorForced" none
      motorSpeed := pyGet kvs "motorSpeed" none
      last_update := some now }
  { last_data := ld, data_history := insertHist st.data_history (mkEntry now ld) }

/-- The parse outcome of an inbound raw byte payload. `payload.decode("utf-8",
errors="ignore")` never fails; `json.loads` on the resulting text either
raises (`malformed`) or yields a JSON value (`parsed`). Every raw byte string
falls into exactly one of these two cases. -/
inductive Payload where
  | malformed
  | parsed (j : Json)

/-- How one `on_message` call ends: the message was applied, it was silently
dropped (the `except` branch of lines 118-120, which prints one diagnostic
and returns), or an exception escaped the handler. -/
inductive Outcome where
  | applied
  | dropped
  | raised (e : String)
deriving DecidableEq

/-- The `on_message` callback (source lines 111-183): a malformed payload is
caught by the `try`/`except` around `json.loads` and dropped with the state
untouched; an object payload runs the locked update; any other successfully
parsed value reaches `payload.get(...)` on line 126 OUTSIDE the `try` block
and raises `AttributeError` out of the handler, leaving the state untouched.
Returns the resulting module state and the call's outcome. -/
def on_message (st : State) (p : Payload) (now : Nat) : State × Outcome :=
  match p with
  | .malformed => (st, .dropped)
  | .parsed (Json.obj kvs) => (applyObj st kvs now, .applied)
  | .parsed _ => (st, .raised "AttributeError")

/-- Number of drop diagnostics emitted by one call (the line-119 print fires
exactly on the dropped branch); summing this over calls is the drop counter. -/
def dropsOf : Outcome → Nat
  | .dropped => 1
  | _ => 0

/-- The locked snapshot taken by `build_dashboard` (source lines 277-280):
`d = dict(last_data)` and `hist_copy = list(data_history)` under `LOCK`. -/
def snapshotOf (st : State) : LastData × List Entry :=
  (st.last_data, st.data_history)

/-- A completed operation on the shared state: one `on_message` delivery or
the operator's history reset (`data_history.clear()` under `LOCK`, source
lines 436-439, which does not touch `last_data`). -/
inductive Op where
  | msg (p : Payload) (t : Nat)
  | clearHistory

/-- Effect of one completed operation on the module state. -/
def stepOp (st : State) : Op → State
  | .msg p t => (on_message st p t).1
  | .clearHistory => { st with data_history := [] }

/-- Module state after a sequence of completed operations from import time. -/
def runOps (ops : List Op) : State :=
  ops.foldl stepOp initState

/-- The module-level bridge state touched by `start_mqtt_once` (source lines
42-44 and 188-219): the configured broker string (used only by the worker's
`connect` call, never inspected at start), the `mqtt_started` guard flag, the
client and thread slots, and ghost counters of how many clients/threads have
ever been created, to express the no-second-thread/no-second-client contract. -/
structure BridgeState where
  broker : String
  mqtt_started : Bool
  mqtt_client : Option Nat
  mqtt_thread : Option Nat
  threadsSpawned : Nat
  clientsCreated : Nat
deriving DecidableEq

/-- `start_mqtt_once` (source lines 188-219). If `mqtt_started` is set it
returns at once; otherwise it creates a client, registers callbacks, spawns
the daemon worker thread and sets the flag. Nothing in the body raises for
any broker string — the broker address is not examined here (it is read only
by `mqtt_client.connect` inside the worker) — so the result is always `ok`:
the `Except` shape records that no exception is reported synchronously. -/
def start_mqtt_once (b : BridgeState) : Except String BridgeState :=
  if b.mqtt_started then Except.ok b
  else Except.ok
    { b with
      mqtt_started := true
      mqtt_client := some b.clientsCreated
      mqtt_thread := some b.threadsSpawned
      threadsSpawned := b.threadsSpawned + 1
      clientsCreated := b.clientsCreated + 1 }

/-- Observable state of the background worker loop (source lines 200-215):
whether the client is connected, how many connect attempts were made, and
whether the loop ever ended fatally (it cannot: `while True` with a blanket
`except` that sleeps and continues). -/
structure WorkerSt where
  connected : Bool
  attempts : Nat
  gaveUp : Bool
deriving DecidableEq

/-- One iteration of the worker's `while True` body, with `ok` the outcome
the transport would give this connect attempt (a malformed broker address
makes every attempt fail). If connected, the iteration just sleeps; otherwise
it attempts to connect; an attempt that raises is caught by the `except`
branch, which sleeps 5 s and continues — the loop never gives up. -/
def workerIter (ok : Bool) (w : WorkerSt) : WorkerSt :=
  if w.connected then w
  else if ok then { connected := true, attempts := w.attempts + 1, gaveUp := false }
  else { connected := false, attempts := w.attempts + 1, gaveUp := false }

/-- The worker after `n` iterations, `okf i` telling whether the `i`-th
connect attempt would succeed. -/
def workerRun (okf : Nat → Bool) : Nat → WorkerSt
  | 0 => { connected := false, attempts := 0, gaveUp := false }
  | n + 1 => workerIter (okf n) (workerRun okf n)

/-- One inbound object message: its decoded fields and its arrival instant. -/
def Msg : Type := List (String × Json) × Nat

/-- Sequential application of one object message (the whole locked block). -/
def applyMsg (st : State) (m : Msg) : State :=
  applyObj st m.1 m.2

/-- Sequential application of a list of object messages. -/
def runMsgs (st : State) (ms : List Msg) : State :=
  ms.foldl applyMsg st

/-- The individual shared-state writes performed inside the `with LOCK:` block
of `on_message` (source lines 134-169), in source order: sixteen `last_data`
slot assignments, the history append (which reads the just-written
`last_data`), and the truncation. The alias lookups bound before the block
(lines 124-132) are thread-local and appear here as pure `let`s. -/
def lockedWrites (kvs : List (String × Json)) (now : Nat) : List (State → State) :=
  let humidity := pyGet kvs "humidity" (pyGet kvs "humidite" none)
  let seuil := pyGet kvs "seuilPot" (pyGet kvs "seuil" (pyGet kvs "tempSeuil" none))
  let alarm := pyGet kvs "alarm" none
  let alarmTemp := pyGet kvs "alarmTemp" none
  let alarmFlame := pyGet kvs "alarmFlame" none
  [ fun st => { st with last_data.temperature := _to_float (pyGet kvs "temperature" none) },
    fun st => { st with last_data.humidity := _to_float humidity },
    fun st => { st with last_data.tempSeuil := _to_float (pyGet kvs "tempSeuil" none) },
    fun st => { st with last_data.humSeuil := _to_float (pyGet kvs "humSeuil" none) },
    fun st => { st with last_data.flame := _to_int (pyGet kvs "flame" none) },
    fun st => { st with last_data.flameRaw := _to_int (pyGet kvs "flameRaw" none) },
    fun st => { st with last_data.pot := _to_int (pyGet kvs "pot" none) },
    fun st => { st with last_data.seuilPot := _to_float seuil },
    fun st => { st with last_data.alarm := alarm.map pyTruthy },
    fun st => { st with last_data.alarmTemp := alarmTemp.map pyTruthy },
    fun st => { st with last_data.alarmFlame := alarmFlame.map pyTruthy },
    fun st => { st with last_data.alarmLocal := pyGet kvs "alarmLocal" none },
    fun st => { st with last_data.muted := pyGet kvs "muted" none },
    fun st => { st with last_data.motorForced := pyGet kvs "motorForced" none },
    fun st => { st with last_data.motorSpeed := pyGet kvs "motorSpeed" none },
    fun st => { st with last_data.last_update := some now },
    fun st => { st with data_history := st.data_history ++ [mkEntry now st.last_data] },
    fun st => { st with data_history :=
      if st.data_history.length > 300 then
        st.data_history.drop (st.data_history.length - 300)
      else st.data_history } ]

/-- Number of micro-writes in one locked block. -/
def numLockedWrites : Nat := 18

/-- State after the first `j` micro-writes of message `m` from `st`: a
mid-critical-section state of the writer. -/
def applyMicro (st : State) (m : Msg) (j : Nat) : State :=
  ((lockedWrites m.1 m.2).take j).foldl (fun s f => f s) st

/-- The shared state a concurrent reader would see at interleaving point
`(i, j)` of the writer's processing of messages `ms`: `i` messages fully
applied, then `j` micro-writes of message `i` (if any) done. The single
`LOCK` makes exactly the points with `j = 0` or `j = numLockedWrites`
reachable by `build_dashboard`'s locked copy, since the writer holds the lock
for the whole block of micro-writes. -/
def observeAt (ms : List Msg) (i j : Nat) : State :=
  let base := runMsgs initState (ms.take i)
  match ms[i]? with
  | some m => applyMicro base m j
  | none => base

/-- The canonical Reading of the specification (data-model section): each
field independently optional. -/
structure Reading where
  temperature : Option Rat
  humidity : Option Rat
  threshold : Option Rat
  flameLocal : Option Bool
  flameRemote : Option Bool
  alarmActive : Option Bool
deriving DecidableEq

/-- Abstraction of the code's `last_data` slots to the spec's canonical
Reading: `threshold` is the `seuilPot` slot, the flame ints are read as
booleans (`0` ↦ `false`), `alarmActive` is the `alarm` slot. -/
def specReadingOf (ld : LastData) : Reading :=
  { temperature := ld.temperature
    humidity := ld.humidity
    threshold := ld.seuilPot
    flameLocal := ld.flame.map (fun n => !(n == 0))
    flameRemote := ld.flameRaw.map (fun n => !(n == 0))
    alarmActive := ld.alarm }

/-- Alias probing as the code performs it: take the value of the first key
PRESENT in the object (a present key with a null value yields `none` and
stops the probe), falling to later keys only when the earlier key is absent. -/
def resolveFirstPresent (keys : List String) (kvs : List (String × Json)) : Option Json :=
  match keys with
  | [] => none
  | k :: ks =>
    match kvs.lookup k with
    | some Json.null => none
    | some v => some v
    | none => resolveFirstPresent ks kvs

/-- Modelled from the spec: alias probing as claim C4 words it — "the first
present, non-null value", a present-but-null key falling through to the next
alias. -/
def firstPresentNonNull (keys : List String) (kvs : List (String × Json)) : Option Json :=
  match keys with
  | [] => none
  | k :: ks =>
    match kvs.lookup k with
    | some Json.null => firstPresentNonNull ks kvs
    | some v => some v
    | none => firstPresentNonNull ks kvs

/-- The shape every history entry has: the five-key projection dict of source
lines 159-165 for some timestamp and slot values. -/
def entryShaped (e : Entry) : Prop :=
  ∃ t a b c d, e =
    [("time", HVal.vtime t), ("temperature", HVal.vfloat a), ("humidity", HVal.vfloat b),
     ("flame", HVal.vint c), ("pot", HVal.vint d)]

/-- Every entry of the history has the five-key shape. -/
def entriesShaped (st : State) : Prop :=
  ∀ e ∈ st.data_history, entryShaped e

/-- Agreement between the `latest` slot and the newest history entry: whenever
the history is non-empty, its last entry holds exactly the current
temperature/humidity/flame/pot slots of `last_data` and carries the timestamp
stored in `last_update`. -/
def latestHistAgree (st : State) : Prop :=
  ∀ e, st.data_history.getLast? = some e →
    List.lookup "temperature" e = some (HVal.vfloat st.last_data.temperature) ∧
    List.lookup "humidity" e = some (HVal.vfloat st.last_data.humidity) ∧
    List.lookup "flame" e = some (HVal.vint st.last_data.flame) ∧
    List.lookup "pot" e = some (HVal.vint st.last_data.pot) ∧
    ∃ t, List.lookup "time" e = some (HVal.vtime t) ∧ st.last_data.last_update = some t

/-! Concrete inputs used by the scenario theorems and witnesses. -/

/-- The payload of the C6 scenario. -/
def payloadC6 : List (String × Json) :=
  [("temperature", Json.num 23.6), ("humidity", Json.num 41),
   ("seuil", Json.num 30.9), ("flame", Json.num 0)]

/-- A payload carrying both `seuil` and `seuilPot`. -/
def kvsOrder : List (String × Json) :=
  [("seuil", Json.num 1), ("seuilPot", Json.num 2)]

/-- A payload whose first probed alias is present but null. -/
def kvsNull : List (String × Json) :=
  [("seuilPot", Json.null), ("seuil", Json.num 5)]

/-- A bridge constructed with a malformed broker address, not yet started. -/
def badBridge : BridgeState :=
  { broker := "://not-a-broker::", mqtt_started := false, mqtt_client := none,
    mqtt_thread := none, threadsSpawned := 0, clientsCreated := 0 }

/-- A bridge that has already been started once. -/
def startedBridge : BridgeState :=
  { broker := "51.103.239.173", mqtt_started := true, mqtt_client := some 0,
    mqtt_thread := some 0, threadsSpawned := 1, clientsCreated := 1 }

/-- Two concrete inbound messages, for the interleaving witness. -/
def msPair : List Msg :=
  [([("temperature", Json.num 1)], 0), ([("temperature", Json.num 2)], 1)]

/-- One concrete delivered message, for the latest/history witness. -/
def opsC9 : List Op :=
  [Op.msg (Payload.parsed (Json.obj [("temperature", Json.num 7)])) 3]

/-- The history entry `opsC9` produces. -/
def entryC9 : Entry :=
  [("time", HVal.vtime 3), ("temperature", HVal.vfloat (some 7)),
   ("humidity", HVal.vfloat none), ("flame", HVal.vint none), ("pot", HVal.vint none)]

/-- One concrete delivered message, for the entry-projection witness. -/
def opsC10 : List Op :=
  [Op.msg (Payload.parsed (Json.obj [("pot", Json.num 9)])) 4]

/-- The history entry `opsC10` produces. -/
def entryC10 : Entry :=
  [("time", HVal.vtime 4), ("temperature", HVal.vfloat none),
   ("humidity", HVal.vfloat none), ("flame", HVal.vint none), ("pot", HVal.vint (some 9))]

/-! ### Helper lemmas -/

/-- `insertHist` always equals "append, then keep the last 300". -/
theorem insertHist_eq_drop (h : List Entry) (e : Entry) :
    insertHist h e = (h ++ [e]).drop ((h ++ [e]).length - 300) := by
  simp only [insertHist]
  split
  · rfl
  · rename_i hle
    have h0 : (h ++ [e]).length - 300 = 0 := by omega
    rw [h0, List.drop_zero]

/-- One insertion never leaves more than 300 entries. -/
theorem length_insertHist_le (h : List Entry) (e : Entry) :
    (insertHist h e).length ≤ 300 := by
  rw [insertHist_eq_drop, List.length_drop]
  omega

/-- Folding insertions over a list of entries keeps exactly the last 300 of
"existing then new", in order. -/
theorem foldl_insertHist (es : List Entry) :
    ∀ h : List Entry, h.length ≤ 300 →
      List.foldl insertHist h es = (h ++ es).drop ((h ++ es).length - 300) := by
  induction es with
  | nil =>
    intro h hh
    simp only [List.foldl_nil, List.append_nil]
    have h0 : h.length - 300 = 0 := by omega
    rw [h0, List.drop_zero]
  | cons e es ih =>
    intro h hh
    rw [List.foldl_cons, ih _ (length_insertHist_le h e), insertHist_eq_drop]
    have hd : (h ++ [e]).length - 300 ≤ (h ++ [e]).length := Nat.sub_le _ _
    rw [← List.drop_append_of_le_length hd, List.drop_drop]
    have hassoc : (h ++ [e]) ++ es = h ++ e :: es := by simp
    rw [hassoc]
    have h1 : (h ++ [e]).length = h.length + 1 := by simp
    have h2 : ((h ++ e :: es).drop ((h ++ [e]).length - 300)).length
        = (h ++ e :: es).length - ((h ++ [e]).length - 300) := List.length_drop ..
    have h3 : (h ++ e :: es).length = h.length + 1 + es.length := by
      simp; omega
    have harg : (h ++ [e]).length - 300
          + (((h ++ e :: es).drop ((h ++ [e]).length - 300)).length - 300)
        = (h ++ e :: es).length - 300 := by omega
    rw [harg]

/-- Dropping fewer elements than the length preserves the last element. -/
theorem getLast?_drop_of_lt {α : Type} :
    ∀ (l : List α) (d : Nat), d < l.length → (l.drop d).getLast? = l.getLast? := by
  intro l
  induction l with
  | nil => intro d hd; simp at hd
  | cons x xs ih =>
    intro d hd
    match d, xs, hd with
    | 0, _, _ => rfl
    | d + 1, y :: ys, hd =>
      have hd' : d < (y :: ys).length := by simpa using Nat.lt_of_succ_lt_succ hd
      calc ((x :: y :: ys).drop (d + 1)).getLast? = ((y :: ys).drop d).getLast? := rfl
        _ = (y :: ys).getLast? := ih d hd'
        _ = (x :: y :: ys).getLast? := (List.getLast?_cons_cons ..).symm

/-- The entry just inserted is the last entry of the history. -/
theorem getLast?_insertHist (h : List Entry) (e : Entry) :
    (insertHist h e).getLast? = some e := by
  rw [insertHist_eq_drop, getLast?_drop_of_lt _ _ (by simp; omega)]
  exact List.getLast?_concat ..

/-- Keys of a history entry, in dict order. -/
theorem mkEntry_keys (now : Nat) (ld : LastData) :
    (mkEntry now ld).map Prod.fst = ["time", "temperature", "humidity", "flame", "pot"] := rfl

theorem entriesShaped_init : entriesShaped initState := by
  intro e he
  simp [initState] at he

theorem entriesShaped_insert {st : State} (hst : entriesShaped st)
    (kvs : List (String × Json)) (now : Nat) :
    entriesShaped (applyObj st kvs now) := by
  intro e he
  have he' : e ∈ st.data_history ++ [mkEntry now (applyObj st kvs now).last_data] := by
    have hsub := List.drop_subset
      ((st.data_history ++ [mkEntry now (applyObj st kvs now).last_data]).length - 300)
      (st.data_history ++ [mkEntry now (applyObj st kvs now).last_data])
    have : e ∈ (applyObj st kvs now).data_history := he
    rw [show (applyObj st kvs now).data_history
        = insertHist st.data_history (mkEntry now (applyObj st kvs now).last_data) from rfl,
      insertHist_eq_drop] at this
    exact hsub this
  rcases List.mem_append.mp he' with hold | hnew
  · exact hst e hold
  · rcases List.mem_singleton.mp hnew with rfl
    exact ⟨now, _, _, _, _, rfl⟩

theorem entriesShaped_step {st : State} (hst : entriesShaped st) (op : Op) :
    entriesShaped (stepOp st op) := by
  cases op with
  | clearHistory =>
    intro e he
    simp [stepOp] at he
  | msg p t =>
    cases p with
    | malformed => exact hst
    | parsed j =>
      cases j with
      | obj kvs => exact entriesShaped_insert hst kvs t
      | null => exact hst
      | bool b => exact hst
      | num q => exact hst
      | str s => exact hst
      | arr xs => exact hst

theorem entriesShaped_run (ops : List Op) : entriesShaped (runOps ops) := by
  have key : ∀ (l : List Op) (st : State), entriesShaped st →
      entriesShaped (l.foldl stepOp st) := by
    intro l
    induction l with
    | nil => intro st hst; exact hst
    | cons op l ih => intro st hst; exact ih _ (entriesShaped_step hst op)
  exact key ops initState entriesShaped_init

/-- Every locked block has the same number of micro-writes. -/
theorem lockedWrites_length (kvs : List (String × Json)) (now : Nat) :
    (lockedWrites kvs now).length = numLockedWrites := rfl

/-- Taking no micro-write leaves the state untouched. -/
theorem applyMicro_zero (st : State) (m : Msg) : applyMicro st m 0 = st := rfl

/-- Running all micro-writes of one locked block is exactly the atomic
`applyObj` of the same message: the micro-step semantics refines the atomic
one at block boundaries. -/
theorem applyMicro_full (st : State) (m : Msg) :
    applyMicro st m numLockedWrites = applyMsg st m := rfl

/-- Extending the processed prefix by the message at position `i`. -/
theorem runMsgs_take_succ (ms : List Msg) (i : Nat) (m : Msg) (h : ms[i]? = some m) :
    runMsgs initState (ms.take (i + 1)) = applyMsg (runMsgs initState (ms.take i)) m := by
  unfold runMsgs
  rw [List.take_succ, h]
  simp [List.foldl_append]

/-- The newest history entry after an object apply agrees with the new
`last_data`; stated on `applyObj` directly. -/
theorem latestHistAgree_apply (st : State) (kvs : List (String × Json)) (now : Nat) :
    latestHistAgree (applyObj st kvs now) := by
  intro e he
  rw [show (applyObj st kvs now).data_history
      = insertHist st.data_history (mkEntry now (applyObj st kvs now).last_data) from rfl,
    getLast?_insertHist] at he
  obtain rfl : mkEntry now (applyObj st kvs now).last_data = e := Option.some.inj he
  exact ⟨rfl, rfl, rfl, rfl, now, rfl, rfl⟩

theorem latestHistAgree_init : latestHistAgree initState := by
  intro e he
  simp [initState] at he

theorem latestHistAgree_step {st : State} (h : latestHistAgree st) (op : Op) :
    latestHistAgree (stepOp st op) := by
  cases op with
  | clearHistory =>
    intro e he
    simp [stepOp] at he
  | msg p t =>
    cases p with
    | malformed => exact h
    | parsed j =>
      cases j with
      | obj kvs => exact latestHistAgree_apply st kvs t
      | null => exact h
      | bool b => exact h
      | num q => exact h
      | str s => exact h
      | arr xs => exact h

theorem latestHistAgree_run (ops : List Op) : latestHistAgree (runOps ops) := by
  have key : ∀ (l : List Op) (st : State), latestHistAgree st →
      latestHistAgree (l.foldl stepOp st) := by
    intro l
    induction l with
    | nil => intro st hst; exact hst
    | cons op l ih => intro st hst; exact ih _ (latestHistAgree_step hst op)
  exact key ops initState latestHistAgree_init

theorem workerRun_gaveUp (okf : Nat → Bool) (n : Nat) :
    (workerRun okf n).gaveUp = false := by
  induction n with
  | zero => rfl
  | succ n ih =>
    simp only [workerRun, workerIter]
    split
    · exact ih
    · split <;> rfl

theorem workerRun_allFail (okf : Nat → Bool) (hall : ∀ m, okf m = false) (n : Nat) :
    (workerRun okf n).connected = false ∧ (workerRun okf n).attempts = n := by
  induction n with
  | zero => exact ⟨rfl, rfl⟩
  | succ n ih =>
    simp only [workerRun, workerIter, ih.1, hall n]
    simp [ih.2]

/-! ### Claim theorems -/

/-- C1 counterexample: the raw payload `b"3"` decodes and parses successfully
to the non-object JSON value `3`; `on_message` then evaluates
`payload.get("humidity", ...)` on an `int` outside the `try` block and raises
`AttributeError` out of the handler — the message is not dropped with a
normal return, refuting the claim as stated. -/
theorem c1_counterexample :
    on_message initState (Payload.parsed (Json.num 3)) 0
      = (initState, Outcome.raised "AttributeError") := rfl

/-- C1 (amended): a malformed payload (one `json.loads` rejects) is dropped
and the handler returns normally with the state untouched; but a payload
that parses to a non-object JSON value escapes the handler with an uncaught
`AttributeError` (state still untouched) — only object payloads are applied. -/
theorem c1_ingest_amended (st : State) (j : Json) (now : Nat) :
    on_message st Payload.malformed now = (st, Outcome.dropped) ∧
    on_message st (Payload.parsed j) now =
      (if j.isObj then (applyObj st j.objFields now, Outcome.applied)
       else (st, Outcome.raised "AttributeError")) := by
  refine ⟨rfl, ?_⟩
  cases j <;> rfl

/-- C2: any interleaving point a concurrent locked Snapshot can observe —
the writer holds `LOCK` for the whole block of micro-writes, so the reader's
locked copy happens either before a block starts (`j = 0`) or after it ends
(`j = numLockedWrites`) — yields exactly the state of a sequential run of
some prefix of the inbound messages. Hence `latest` is never a mix of fields
from two messages, and latest and history are consistent as of the single
instant after message `k`. -/
theorem c2_snapshot_consistent (ms : List Msg) (i j : Nat)
    (hlock : j = 0 ∨ j = numLockedWrites) :
    ∃ k, k ≤ ms.length ∧
      snapshotOf (observeAt ms i j) = snapshotOf (runMsgs initState (ms.take k)) := by
  cases hget : ms[i]? with
  | none =>
    refine ⟨min i ms.length, Nat.min_le_right .., ?_⟩
    simp only [observeAt, hget]
    rcases Nat.le_total i ms.length with hle | hle
    · rw [Nat.min_eq_left hle]
    · rw [Nat.min_eq_right hle, List.take_of_length_le hle, List.take_length]
  | some m =>
    have hi : i < ms.length := (List.getElem?_eq_some.mp hget).1
    rcases hlock with rfl | rfl
    · exact ⟨i, Nat.le_of_lt hi, by simp only [observeAt, hget]; rfl⟩
    · refine ⟨i + 1, hi, ?_⟩
      simp only [observeAt, hget]
      rw [runMsgs_take_succ ms i m hget]
      rfl

/-- C2 witness: observing after the first of two messages, outside the lock,
is a sequential prefix state. -/
theorem c2_snapshot_consistent_witness :
    ((0 : Nat) = 0 ∨ (0 : Nat) = numLockedWrites) ∧
    ∃ k, k ≤ msPair.length ∧
      snapshotOf (observeAt msPair 1 0) = snapshotOf (runMsgs initState (msPair.take k)) :=
  ⟨Or.inl rfl, c2_snapshot_consistent msPair 1 0 (Or.inl rfl)⟩

/-- C3: the history store of `on_message`. The first conjunct ties the code's
update to `insertHist`; the remaining ones show that after any sequence of
insertions the length never exceeds 300, the history is exactly the last 300
entries in arrival order, and in particular inserting 301 entries into an
empty history keeps exactly the last 300 (the oldest evicted). -/
theorem c3_history_bound (st : State) (kvs : List (String × Json)) (now : Nat)
    (es : List Entry) :
    (applyObj st kvs now).data_history
      = insertHist st.data_history (mkEntry now (applyObj st kvs now).last_data) ∧
    (List.foldl insertHist [] es).length ≤ 300 ∧
    List.foldl insertHist [] es = es.drop (es.length - 300) ∧
    (es.length = 301 → List.foldl insertHist [] es = es.drop 1) := by
  have h3 : List.foldl insertHist [] es = es.drop (es.length - 300) := by
    have := foldl_insertHist es [] (by simp)
    simpa using this
  refine ⟨rfl, ?_, h3, ?_⟩
  · rw [h3, List.length_drop]
    omega
  · intro h301
    rw [h3, h301]

/-- C3 witness: 301 concrete insertions keep exactly the last 300. -/
theorem c3_history_bound_witness :
    (List.replicate 301 (mkEntry 0 initLastData)).length = 301 ∧
    List.foldl insertHist [] (List.replicate 301 (mkEntry 0 initLastData))
      = (List.replicate 301 (mkEntry 0 initLastData)).drop 1 :=
  ⟨List.length_replicate ..,
   (c3_history_bound initState [] 0 (List.replicate 301 (mkEntry 0 initLastData))).2.2.2
     (List.length_replicate ..)⟩

/-- C4 counterexample: the claim's probe order and null handling both differ
from the code. On `{"seuil": 1, "seuilPot": 2}` the code stores 2 (it probes
`seuilPot` first) while the claimed alias order `["seuil", "seuilPot", ...]`
yields 1; and on `{"seuilPot": null, "seuil": 5}` the code stores `None`
(a present-but-null alias does not fall through) while the claimed resolution
yields 5. -/
theorem c4_counterexample :
    (applyObj initState kvsOrder 0).last_data.seuilPot = some (2 : Rat) ∧
    _to_float (firstPresentNonNull
      ["seuil", "seuilPot", "tempSeuil", "threshold", "setpoint"] kvsOrder) = some (1 : Rat) ∧
    some (2 : Rat) ≠ some (1 : Rat) ∧
    (applyObj initState kvsNull 0).last_data.seuilPot = none ∧
    _to_float (firstPresentNonNull
      ["seuil", "seuilPot", "tempSeuil", "threshold", "setpoint"] kvsNull) = some (5 : Rat) := by
  refine ⟨rfl, rfl, by decide, rfl, rfl⟩

/-- C4 (amended): the threshold slot is resolved by probing the ordered alias
list `["seuilPot", "seuil", "tempSeuil"]` and taking the value of the first
key PRESENT — a present key with a null value stops the probe and yields
null; `threshold` and `setpoint` are never consulted — then coercing with
`_to_float`. -/
theorem c4_threshold_amended (st : State) (kvs : List (String × Json)) (now : Nat) :
    (applyObj st kvs now).last_data.seuilPot
      = _to_float (resolveFirstPresent ["seuilPot", "seuil", "tempSeuil"] kvs) := rfl

/-- C5 counterexample: with a malformed broker address the bridge start
reports no error at all — `start_mqtt_once` returns normally, having only
spawned the worker — and the worker keeps attempting to connect (3 attempts
after 3 iterations, never a terminal failure), refuting "reported
synchronously at Start(), not retried". -/
theorem c5_counterexample :
    start_mqtt_once badBridge = Except.ok
      { broker := "://not-a-broker::", mqtt_started := true, mqtt_client := some 0,
        mqtt_thread := some 0, threadsSpawned := 1, clientsCreated := 1 } ∧
    (workerRun (fun _ => false) 3).gaveUp = false ∧
    (workerRun (fun _ => false) 3).attempts = 3 ∧
    (workerRun (fun _ => false) 3).connected = false :=
  ⟨rfl, rfl, rfl, rfl⟩

/-- C5 (amended): `start_mqtt_once` never reports a configuration error
synchronously — it returns `ok` for every bridge state, malformed broker
address included, since the address is first touched by `connect` inside the
worker thread; the worker catches every connect failure and retries
indefinitely (one attempt per iteration while disconnected, never a terminal
state), so a malformed address is indistinguishable from a runtime
connectivity failure. -/
theorem c5_start_amended (b : BridgeState) (okf : Nat → Bool) (n : Nat) :
    (∃ b2, start_mqtt_once b = Except.ok b2) ∧
    (workerRun okf n).gaveUp = false ∧
    ((∀ m, okf m = false) →
      (workerRun okf n).connected = false ∧ (workerRun okf n).attempts = n) := by
  refine ⟨?_, workerRun_gaveUp okf n, fun hall => workerRun_allFail okf hall n⟩
  unfold start_mqtt_once
  split
  · exact ⟨b, rfl⟩
  · exact ⟨_, rfl⟩

/-- C5 amended witness: with every connect attempt failing, after two worker
iterations the bridge is still disconnected and has attempted twice. -/
theorem c5_start_amended_witness :
    (workerRun (fun _ => false) 2).connected = false ∧
    (workerRun (fun _ => false) 2).attempts = 2 :=
  (c5_start_amended badBridge (fun _ => false) 2).2.2 (fun _ => rfl)

/-- C6: the scenario payload normalizes to temperature 23.6, humidity 41,
threshold (seuilPot slot) 30.9, flame 0 — flameLocal false under the
canonical reading — with the remote-flame slot (`flameRaw`) and the alarm
slot absent (null). -/
theorem c6_scenario (st : State) (now : Nat) :
    (applyObj st payloadC6 now).last_data.temperature = some (23.6 : Rat) ∧
    (applyObj st payloadC6 now).last_data.humidity = some (41 : Rat) ∧
    (applyObj st payloadC6 now).last_data.seuilPot = some (30.9 : Rat) ∧
    (applyObj st payloadC6 now).last_data.flame = some 0 ∧
    (applyObj st payloadC6 now).last_data.flameRaw = none ∧
    (applyObj st payloadC6 now).last_data.alarm = none ∧
    specReadingOf (applyObj st payloadC6 now).last_data =
      { temperature := some (23.6 : Rat), humidity := some (41 : Rat),
        threshold := some (30.9 : Rat), flameLocal := some false,
        flameRemote := none, alarmActive := none } :=
  ⟨rfl, rfl, rfl, rfl, rfl, rfl, rfl⟩

/-- C7: a payload that `json.loads` rejects (such as `b"not-json"`) is
dropped: the handler returns normally, `last_data` and `data_history` are
exactly what they were (atomicity on error), and exactly one drop diagnostic
is emitted by the call (the drop counter increments by 1). -/
theorem c7_malformed_drop (st : State) (now : Nat) :
    on_message st Payload.malformed now = (st, Outcome.dropped) ∧
    (on_message st Payload.malformed now).1.last_data = st.last_data ∧
    (on_message st Payload.malformed now).1.data_history = st.data_history ∧
    dropsOf (on_message st Payload.malformed now).2 = 1 :=
  ⟨rfl, rfl, rfl, rfl⟩

/-- C8: `start_mqtt_once` is idempotent — on any already-started bridge state
it returns the state unchanged (in particular the thread- and client-creation
counters do not move: no second worker thread, no second client). -/
theorem c8_start_idempotent (b : BridgeState) (h : b.mqtt_started = true) :
    start_mqtt_once b = Except.ok b := by
  simp [start_mqtt_once, h]

/-- C8 witness: a concrete started bridge is left untouched. -/
theorem c8_start_idempotent_witness :
    startedBridge.mqtt_started = true ∧
    start_mqtt_once startedBridge = Except.ok startedBridge :=
  ⟨rfl, c8_start_idempotent startedBridge rfl⟩

/-- C9: after every completed operation sequence (message deliveries and
history clears), a non-empty history's last entry agrees with `last_data` on
the temperature, humidity, flame and pot slots, and its `time` equals the
`last_update` timestamp. -/
theorem c9_latest_history_agree (ops : List Op) (e : Entry)
    (h : (runOps ops).data_history.getLast? = some e) :
    List.lookup "temperature" e = some (HVal.vfloat (runOps ops).last_data.temperature) ∧
    List.lookup "humidity" e = some (HVal.vfloat (runOps ops).last_data.humidity) ∧
    List.lookup "flame" e = some (HVal.vint (runOps ops).last_data.flame) ∧
    List.lookup "pot" e = some (HVal.vint (runOps ops).last_data.pot) ∧
    ∃ t, List.lookup "time" e = some (HVal.vtime t) ∧
      (runOps ops).last_data.last_update = some t :=
  latestHistAgree_run ops e h

/-- C9 witness: one concrete delivered message. -/
theorem c9_latest_history_agree_witness :
    ((runOps opsC9).data_history.getLast? = some entryC9) ∧
    (List.lookup "temperature" entryC9
        = some (HVal.vfloat (runOps opsC9).last_data.temperature) ∧
      List.lookup "humidity" entryC9
        = some (HVal.vfloat (runOps opsC9).last_data.humidity) ∧
      List.lookup "flame" entryC9 = some (HVal.vint (runOps opsC9).last_data.flame) ∧
      List.lookup "pot" entryC9 = some (HVal.vint (runOps opsC9).last_data.pot) ∧
      ∃ t, List.lookup "time" entryC9 = some (HVal.vtime t) ∧
        (runOps opsC9).last_data.last_update = some t) :=
  ⟨rfl, c9_latest_history_agree opsC9 entryC9 rfl⟩

/-- C10: every history entry ever produced is the fixed five-key projection
`[time, temperature, humidity, flame, pot]` of the reading; in particular
the threshold (`seuilPot`) and `alarm` slots are never stored in a history
entry. -/
theorem c10_entry_projection (ops : List Op) (e : Entry)
    (h : e ∈ (runOps ops).data_history) :
    e.map Prod.fst = ["time", "temperature", "humidity", "flame", "pot"] ∧
    List.lookup "seuilPot" e = none ∧
    List.lookup "alarm" e = none := by
  obtain ⟨t, a, b, c, d, rfl⟩ := entriesShaped_run ops e h
  exact ⟨rfl, rfl, rfl⟩

/-- C10 witness: the entry produced by one concrete delivered message. -/
theorem c10_entry_projection_witness :
    (entryC10 ∈ (runOps opsC10).data_history) ∧
    (entryC10.map Prod.fst = ["time", "temperature", "humidity", "flame", "pot"] ∧
      List.lookup "seuilPot" entryC10 = none ∧
      List.lookup "alarm" entryC10 = none) := by
  have hmem : entryC10 ∈ (runOps opsC10).data_history := by
    show entryC10 ∈ [entryC10]
    exact List.mem_singleton.mpr rfl
  exact ⟨hmem, c10_entry_projection opsC10 entryC10 hmem⟩
